import Mathlib

/-!
Verification of the SpotCloud downloader core (`src/main.py`).

The file embeds the side-effect-free helpers (`build_spotdl_cmd`,
`_extract_sc_queries_from_ydl_json`, `_sanitize_sc_url`) and the playlist
resolver `get_soundcloud_queries`.  The resolver's calls to external
extraction backends (the yt-dlp Python API, `python -m yt_dlp`, and the
standalone `yt-dlp` executable, each in flat and full mode) are IO: they are
modelled by a `Backends` environment that supplies, for each (tier, mode)
attempt, either the parsed info-dict the attempt would return (`Except.ok`)
or the message of the Python exception it would raise (`Except.error`), plus
the result of the `shutil.which` executable lookup.  Everything downstream of
those boundaries is translated from the source.
-/

namespace SpotCloud

/-- Embeds Python `str.strip()`: drop leading and trailing whitespace.
(Lean `Char.isWhitespace` stands in for Python's whitespace class.) -/
def pyStrip (s : String) : String :=
  String.mk (((s.data.dropWhile Char.isWhitespace).reverse.dropWhile
    Char.isWhitespace).reverse)

/-- Embeds Python `s.startswith(pre)`. -/
def pyStartswith (s pre : String) : Bool :=
  pre.data.isPrefixOf s.data

/-- Embeds Python `s.split(c)[0]` for a one-character separator `c`:
`split` cuts the string at every occurrence of the separator, so element 0
is the prefix of `s` up to (excluding) the first occurrence of `c`, and `s`
itself when `c` does not occur. -/
def splitHead (c : Char) (s : String) : String :=
  String.mk (s.data.takeWhile (fun a => a != c))

/-- A yt-dlp track record: the `title` and `uploader` fields of one entry of
the info-dict (`none` when the key is missing or null). -/
structure TrackRecord where
  title : Option String
  uploader : Option String

/-- A yt-dlp info-dict as consumed by the program: its `entries` list
(`none` when the key is missing or null, matching `data.get("entries", []) or []`). -/
structure YdlInfo where
  entries : Option (List TrackRecord)

/-- Embeds `build_spotdl_cmd` (src/main.py lines 56-67).  `sys.executable`
is environment-dependent and passed explicitly. -/
def build_spotdl_cmd (pythonExe query out_dir bitrate : String)
    (user_auth : Bool) : List String :=
  let cmd := [pythonExe, "-m", "spotdl", "download", query,
    "--output", out_dir, "--format", "m4a", "--bitrate", bitrate]
  if user_auth then cmd ++ ["--user-auth"] else cmd

/-- The body of the `for entry in data.get("entries", []) or []:` loop of
`_extract_sc_queries_from_ydl_json` (src/main.py lines 73-77): strip the
entry's title and uploader, and append `f"{uploader} - {title}"` (or just
`title` when the stripped uploader is empty) to `queries` when the stripped
title is non-empty. -/
def extractStep (queries : List String) (entry : TrackRecord) : List String :=
  let title := pyStrip (entry.title.getD "")
  let uploader := pyStrip (entry.uploader.getD "")
  if title ≠ "" then
    queries ++ [if uploader ≠ "" then uploader ++ " - " ++ title else title]
  else queries

/-- Embeds `_extract_sc_queries_from_ydl_json` (src/main.py lines 70-78):
the loop over the entry list, starting from `queries = []`. -/
def _extract_sc_queries_from_ydl_json (data : YdlInfo) : List String :=
  (data.entries.getD []).foldl extractStep []

/-- Embeds `_sanitize_sc_url` (src/main.py lines 81-83):
`url.split("?")[0].split("#")[0]`. -/
def _sanitize_sc_url (url : String) : String :=
  splitHead '#' (splitHead '?' url)

/-- The message of the `ValueError` raised on a malformed URL
(src/main.py lines 101-104). -/
def invalidUrlMsg : String :=
  "The URL does not appear to be a full SoundCloud link. Please paste the entire playlist URL, including https://soundcloud.com/…"

/-- Tier 1 exception tag (src/main.py line 133): the text put in front of
`str(exc)` when tier 1 raises. -/
def tier1ErrTag : String := "Python API error: "

/-- Tier 1 zero-entries message (src/main.py line 131). -/
def tier1EmptyMsg : String :=
  "Python API returned no entries even after full extraction"

/-- Tier 2 exception tag (src/main.py line 144). -/
def tier2ErrTag : String := "python -m yt_dlp error: "

/-- Tier 2 zero-entries message (src/main.py line 142). -/
def tier2EmptyMsg : String :=
  "python -m yt_dlp returned no entries even after full extraction"

/-- Tier 3 exception tag (src/main.py line 157). -/
def tier3ErrTag : String := "Executable error: "

/-- Tier 3 zero-entries message (src/main.py line 155). -/
def tier3EmptyMsg : String :=
  "yt-dlp executable returned no entries even after full extraction"

/-- Message recorded when no `yt-dlp` executable is on PATH
(src/main.py line 159). -/
def exeNotFoundMsg : String := "yt-dlp executable not found on PATH"

/-- The summary prefixed to the aggregated failure (src/main.py line 163). -/
def summaryMsg : String := "yt-dlp could not extract the SoundCloud set."

/-- The exception classes `get_soundcloud_queries` can raise:
`ValueError` for the URL sanity check, `RuntimeError` for the aggregated
extraction failure. -/
inductive ResolveError where
  | valueError : String → ResolveError
  | runtimeError : String → ResolveError

/-- Environment for one resolver call: the outcome each backend (tier, mode)
attempt would have for the resolver's URL, and the `shutil.which` lookup of
tier 3.  `Except.ok` carries the info-dict an attempt returns; `Except.error`
carries `str(exc)` of the exception it raises (for the subprocess tiers this
includes non-zero exit, JSON decode errors, etc., all caught by the same
`except Exception` handler). -/
structure Backends where
  t1flat : Except String YdlInfo
  t1full : Except String YdlInfo
  t2flat : Except String YdlInfo
  t2full : Except String YdlInfo
  t3flat : Except String YdlInfo
  t3full : Except String YdlInfo
  exePath : Option String

/-- One tier of the ladder (src/main.py lines 125-133, 136-144, 149-157):

    try:
        q = attempt(flat=True)
        if not q: q = attempt(flat=False)
        if q: return q
        errors.append(emptyMsg)
    except Exception as exc:
        errors.append(errTag + str(exc))

`Except.ok q` is the tier returning the non-empty list `q`;
`Except.error e` is the error string the tier appends before the ladder
moves on.  An exception anywhere in the `try` body jumps straight to the
handler, so a raising flat attempt never reaches the full attempt. -/
def runTier (flat full : Except String YdlInfo) (errTag emptyMsg : String) :
    Except String (List String) :=
  match flat with
  | .error exc => .error (errTag ++ exc)
  | .ok data =>
    let q := _extract_sc_queries_from_ydl_json data
    if q.isEmpty then
      match full with
      | .error exc => .error (errTag ++ exc)
      | .ok data2 =>
        let q2 := _extract_sc_queries_from_ydl_json data2
        if q2.isEmpty then .error emptyMsg else .ok q2
    else .ok q

/-- Tier 3 including the executable lookup (src/main.py lines 147-159):
when `shutil.which` finds nothing, the tier records its not-found message
without attempting anything. -/
def runTier3 (b : Backends) : Except String (List String) :=
  match b.exePath with
  | some _ => runTier b.t3flat b.t3full tier3ErrTag tier3EmptyMsg
  | none => .error exeNotFoundMsg

/-- The tier ladder of `get_soundcloud_queries` after the URL check
(src/main.py lines 122-165): the first tier returning a non-empty list is
returned; otherwise the three error strings `e1, e2, e3` accumulated in
`errors` are joined by `".".join(errors)` behind the summary and raised as
one `RuntimeError`. -/
def resolveLadder (b : Backends) : Except ResolveError (List String) :=
  match runTier b.t1flat b.t1full tier1ErrTag tier1EmptyMsg with
  | .ok q => .ok q
  | .error e1 =>
    match runTier b.t2flat b.t2full tier2ErrTag tier2EmptyMsg with
    | .ok q => .ok q
    | .error e2 =>
      match runTier3 b with
      | .ok q => .ok q
      | .error e3 =>
        .error (.runtimeError
          (summaryMsg ++ String.intercalate "." [e1, e2, e3]))

/-- Embeds `get_soundcloud_queries` (src/main.py lines 86-165):
sanitize the stripped URL, fail fast with `ValueError` unless it starts
with `"http"`, then run the backend ladder. -/
def get_soundcloud_queries (b : Backends) (sc_url : String) :
    Except ResolveError (List String) :=
  let url := _sanitize_sc_url (pyStrip sc_url)
  if ! pyStartswith url "http" then
    .error (.valueError invalidUrlMsg)
  else
    resolveLadder b

/-- Modelled from the spec: `"uploader - title"` when the trimmed uploader is
non-empty else `"title"`, and no query at all when the trimmed title is
empty (record skipped).  Written from the spec's words for comparison with
`_extract_sc_queries_from_ydl_json`. -/
def formatTrackSpec (e : TrackRecord) : Option String :=
  let t := pyStrip (e.title.getD "")
  let u := pyStrip (e.uploader.getD "")
  if t = "" then none
  else some (if u = "" then t else u ++ " - " ++ t)

/-- Modelled from the spec: remove everything from the first `?` or `#`
onward, whichever occurs first.  Written from the spec's words for
comparison with `_sanitize_sc_url`. -/
def sanitizeSpec (s : String) : String :=
  String.mk (s.data.takeWhile (fun c => c != '?' && c != '#'))

/-- Modelled from the spec: the string begins with an HTTP/HTTPS scheme. -/
def startsWithHttpScheme (s : String) : Bool :=
  pyStartswith s "http://" || pyStartswith s "https://"

/-- The string `t` occurs inside `s`. -/
def strContains (s t : String) : Prop :=
  ∃ a z, s = a ++ t ++ z

lemma isPrefixOf_self_append (l t : List Char) : l.isPrefixOf (l ++ t) = true := by
  induction l with
  | nil => simp
  | cons a l ih => simp [List.isPrefixOf, ih]

lemma pyStartswith_append (a z : String) : pyStartswith (a ++ z) a = true := by
  simp [pyStartswith, isPrefixOf_self_append]

lemma string_mk_eq_empty_iff (l : List Char) : String.mk l = "" ↔ l = [] := by
  constructor
  · intro h
    exact congrArg String.data h
  · intro h
    rw [h]

lemma mem_of_mem_dropWhile {α : Type} {c : α} {p : α → Bool} {l : List α}
    (hc : c ∈ l.dropWhile p) : c ∈ l := by
  rw [← List.takeWhile_append_dropWhile p (l := l)]
  exact List.mem_append_right _ hc

lemma forall_ws_dropWhile_iff (l : List Char) :
    (∀ c ∈ l.dropWhile Char.isWhitespace, c.isWhitespace) ↔
      ∀ c ∈ l, c.isWhitespace := by
  constructor
  · intro h c hc
    rw [← List.takeWhile_append_dropWhile Char.isWhitespace (l := l)] at hc
    rcases List.mem_append.mp hc with h1 | h2
    · exact List.mem_takeWhile_imp h1
    · exact h c h2
  · intro h c hc
    exact h c (mem_of_mem_dropWhile hc)

lemma pyStrip_eq_empty_iff (s : String) :
    pyStrip s = "" ↔ ∀ c ∈ s.data, c.isWhitespace := by
  rw [pyStrip, string_mk_eq_empty_iff, List.reverse_eq_nil_iff,
    List.dropWhile_eq_nil_iff]
  constructor
  · intro h
    rw [← forall_ws_dropWhile_iff]
    intro c hc
    exact h c (List.mem_reverse.mpr hc)
  · intro h c hc
    exact h c (mem_of_mem_dropWhile (List.mem_reverse.mp hc))

lemma pyStrip_data (s : String) :
    (pyStrip s).data =
      ((s.data.dropWhile Char.isWhitespace).reverse.dropWhile
        Char.isWhitespace).reverse := rfl

lemma exists_nonws_of_pyStrip_ne (s : String) (h : pyStrip s ≠ "") :
    ∃ c ∈ (pyStrip s).data, ¬ c.isWhitespace := by
  have hne : (s.data.dropWhile Char.isWhitespace).reverse.dropWhile
      Char.isWhitespace ≠ [] := by
    intro h0
    exact h (by simp [pyStrip, h0])
  refine ⟨((s.data.dropWhile Char.isWhitespace).reverse.dropWhile
    Char.isWhitespace).head hne, ?_, ?_⟩
  · rw [pyStrip_data, List.mem_reverse]
    exact List.head_mem hne
  · have := List.head_dropWhile_not Char.isWhitespace
      (s.data.dropWhile Char.isWhitespace).reverse hne
    simp [this]

lemma pyStrip_ne_of_exists_nonws (s : String)
    (h : ∃ c ∈ s.data, ¬ c.isWhitespace) : pyStrip s ≠ "" := by
  intro h0
  rcases h with ⟨c, hc, hnw⟩
  exact hnw ((pyStrip_eq_empty_iff s).mp h0 c hc)

lemma extractStep_eq (queries : List String) (e : TrackRecord) :
    extractStep queries e = queries ++ (formatTrackSpec e).toList := by
  by_cases ht : pyStrip (e.title.getD "") = ""
  · simp [extractStep, formatTrackSpec, ht]
  · by_cases hu : pyStrip (e.uploader.getD "") = ""
    · simp [extractStep, formatTrackSpec, ht, hu]
    · simp [extractStep, formatTrackSpec, ht, hu]

lemma foldl_extract_eq (l : List TrackRecord) (acc : List String) :
    l.foldl extractStep acc = acc ++ l.filterMap formatTrackSpec := by
  induction l generalizing acc with
  | nil => simp
  | cons e l ih =>
    rw [List.foldl_cons, extractStep_eq, ih, List.filterMap_cons]
    cases h : formatTrackSpec e <;> simp

lemma extract_eq_filterMap (d : YdlInfo) :
    _extract_sc_queries_from_ydl_json d =
      (d.entries.getD []).filterMap formatTrackSpec := by
  unfold _extract_sc_queries_from_ydl_json
  simpa using foldl_extract_eq (d.entries.getD []) []

lemma pyStrip_mem_extract_ne (d : YdlInfo) (s : String)
    (hs : s ∈ _extract_sc_queries_from_ydl_json d) : pyStrip s ≠ "" := by
  rw [extract_eq_filterMap] at hs
  rcases List.mem_filterMap.mp hs with ⟨e, _, he⟩
  by_cases ht : pyStrip (e.title.getD "") = ""
  · simp [formatTrackSpec, ht] at he
  · have hnw := exists_nonws_of_pyStrip_ne _ ht
    rcases hnw with ⟨c, hc, hcw⟩
    by_cases hu : pyStrip (e.uploader.getD "") = ""
    · simp [formatTrackSpec, ht, hu] at he
      apply pyStrip_ne_of_exists_nonws
      exact ⟨c, by rw [← he]; exact hc, hcw⟩
    · simp [formatTrackSpec, ht, hu] at he
      apply pyStrip_ne_of_exists_nonws
      refine ⟨c, ?_, hcw⟩
      rw [← he, String.data_append]
      exact List.mem_append_right _ hc

lemma runTier_ok_elim (flat full : Except String YdlInfo) (tag msg : String)
    (q : List String) (h : runTier flat full tag msg = .ok q) :
    q ≠ [] ∧ ∃ d, _extract_sc_queries_from_ydl_json d = q := by
  cases flat with
  | error e => simp [runTier] at h
  | ok d =>
    cases full with
    | error e2 =>
      simp only [runTier] at h
      split at h
      · exact absurd h (by simp)
      · rename_i hd
        have hq : _extract_sc_queries_from_ydl_json d = q := by
          simpa using h
        refine ⟨?_, d, hq⟩
        rw [← hq]
        simpa using hd
    | ok d2 =>
      simp only [runTier] at h
      split at h
      · split at h
        · exact absurd h (by simp)
        · rename_i hd2
          have hq : _extract_sc_queries_from_ydl_json d2 = q := by
            simpa using h
          refine ⟨?_, d2, hq⟩
          rw [← hq]
          simpa using hd2
      · rename_i hd
        have hq : _extract_sc_queries_from_ydl_json d = q := by
          simpa using h
        refine ⟨?_, d, hq⟩
        rw [← hq]
        simpa using hd

lemma runTier3_ok_elim (b : Backends) (q : List String)
    (h : runTier3 b = .ok q) :
    q ≠ [] ∧ ∃ d, _extract_sc_queries_from_ydl_json d = q := by
  unfold runTier3 at h
  split at h
  · exact runTier_ok_elim _ _ _ _ _ h
  · exact absurd h (by simp)

lemma ladder_ok_elim (b : Backends) (q : List String)
    (h : resolveLadder b = .ok q) :
    q ≠ [] ∧ ∃ d, _extract_sc_queries_from_ydl_json d = q := by
  unfold resolveLadder at h
  split at h
  · rename_i q1 hq1
    obtain rfl : q1 = q := by simpa using h
    exact runTier_ok_elim _ _ _ _ _ hq1
  · split at h
    · rename_i q1 hq1
      obtain rfl : q1 = q := by simpa using h
      exact runTier_ok_elim _ _ _ _ _ hq1
    · split at h
      · rename_i q1 hq1
        obtain rfl : q1 = q := by simpa using h
        exact runTier3_ok_elim _ _ hq1
      · exact absurd h (by simp)

lemma get_ok_elim (b : Backends) (url : String) (q : List String)
    (h : get_soundcloud_queries b url = .ok q) :
    q ≠ [] ∧ ∃ d, _extract_sc_queries_from_ydl_json d = q := by
  simp only [get_soundcloud_queries] at h
  split at h
  · exact absurd h (by simp)
  · exact ladder_ok_elim _ _ h

lemma get_of_check (b : Backends) (url : String)
    (h : pyStartswith (_sanitize_sc_url (pyStrip url)) "http" = true) :
    get_soundcloud_queries b url = resolveLadder b := by
  simp [get_soundcloud_queries, h]

lemma ladder_t1_ok (b : Backends) (q : List String)
    (h : runTier b.t1flat b.t1full tier1ErrTag tier1EmptyMsg = .ok q) :
    resolveLadder b = .ok q := by
  simp [resolveLadder, h]

lemma ladder_t2_ok (b : Backends) (q : List String) (e1 : String)
    (h1 : runTier b.t1flat b.t1full tier1ErrTag tier1EmptyMsg = .error e1)
    (h2 : runTier b.t2flat b.t2full tier2ErrTag tier2EmptyMsg = .ok q) :
    resolveLadder b = .ok q := by
  simp [resolveLadder, h1, h2]

lemma ladder_all_err (b : Backends) (e1 e2 e3 : String)
    (h1 : runTier b.t1flat b.t1full tier1ErrTag tier1EmptyMsg = .error e1)
    (h2 : runTier b.t2flat b.t2full tier2ErrTag tier2EmptyMsg = .error e2)
    (h3 : runTier3 b = .error e3) :
    resolveLadder b =
      .error (.runtimeError
        (summaryMsg ++ String.intercalate "." [e1, e2, e3])) := by
  simp [resolveLadder, h1, h2, h3]

lemma intercalate_three (a b c : String) :
    String.intercalate "." [a, b, c] = a ++ "." ++ b ++ "." ++ c := rfl

lemma pyStrip_empty : pyStrip "" = "" := rfl

/-- The info-dict of the sample playlist
`{"entries":[{"title":"Foo","uploader":"Bar"},{"title":"Baz"}]}`
(src/main.py line 380, `SAMPLE_YDL_JSON`). -/
def infoFooBar : YdlInfo := ⟨some [⟨some "Foo", some "Bar"⟩, ⟨some "Baz", none⟩]⟩

/-- An info-dict with an empty entry list. -/
def infoEmpty : YdlInfo := ⟨some []⟩

/-- Environment where the tier-1 flat attempt already yields the sample
tracks. -/
def envT1Good : Backends :=
  ⟨.ok infoFooBar, .ok infoEmpty, .ok infoEmpty, .ok infoEmpty,
    .ok infoEmpty, .ok infoEmpty, none⟩

/-- Environment where the tier-1 flat attempt yields zero tracks, the tier-1
full attempt yields the sample tracks, and every later attempt would
raise. -/
def envT1FullGood : Backends :=
  ⟨.ok infoEmpty, .ok infoFooBar, .error "x", .error "x",
    .error "x", .error "x", none⟩

/-- Environment where the tier-1 flat attempt raises while the tier-1 full
attempt would yield the sample tracks; tiers 2 and 3 find nothing. -/
def envFlatRaises : Backends :=
  ⟨.error "boom", .ok infoFooBar, .ok infoEmpty, .ok infoEmpty,
    .ok infoEmpty, .ok infoEmpty, some "/usr/local/bin/yt-dlp"⟩

/-- Environment where every attempt succeeds mechanically but yields zero
tracks. -/
def envAllEmpty : Backends :=
  ⟨.ok infoEmpty, .ok infoEmpty, .ok infoEmpty, .ok infoEmpty,
    .ok infoEmpty, .ok infoEmpty, some "/usr/local/bin/yt-dlp"⟩

/-- Environment where every tier's flat attempt raises. -/
def envAllErr : Backends :=
  ⟨.error "E1", .ok infoEmpty, .error "E2", .ok infoEmpty,
    .error "E3", .ok infoEmpty, some "/usr/local/bin/yt-dlp"⟩

/-- Claim C1 is false on the code: in `envFlatRaises` the tier-1 flat
attempt raises `"boom"` while the tier-1 full attempt would yield the
sample tracks; the claim predicts the tier still performs its full-mode
attempt and hence succeeds with `["Bar - Foo", "Baz"]`, but the resolver
skips the full attempt, records the exception, exhausts tiers 2 and 3, and
raises the aggregated `RuntimeError`. -/
theorem claim_C1_counterexample :
    get_soundcloud_queries envFlatRaises "https://soundcloud.com/artist/set" =
      .error (.runtimeError
        "yt-dlp could not extract the SoundCloud set.Python API error: boom.python -m yt_dlp returned no entries even after full extraction.yt-dlp executable returned no entries even after full extraction") ∧
    ∀ q, get_soundcloud_queries envFlatRaises
      "https://soundcloud.com/artist/set" ≠ .ok q := by
  refine ⟨rfl, ?_⟩
  intro q h
  exact Except.noConfusion h

/-- Claim C1 (amended): an exception raised by the flat-mode attempt ABORTS
the tier: the tier's full-mode attempt is skipped (the outcome is the same
whatever the full attempt would return), the exception's message behind the
tier's tag is recorded as that tier's error string, and the next tier is
tried.  Only a flat attempt that returns zero tracks without raising
triggers the tier's full-mode attempt. -/
theorem claim_C1 :
    (∀ (e : String) (full : Except String YdlInfo) (tag msg : String),
      runTier (.error e) full tag msg = .error (tag ++ e)) ∧
    (∀ (e : String) (f1 f2 x1 x2 x3 x4 : Except String YdlInfo)
      (xe : Option String) (url : String),
      get_soundcloud_queries ⟨.error e, f1, x1, x2, x3, x4, xe⟩ url =
        get_soundcloud_queries ⟨.error e, f2, x1, x2, x3, x4, xe⟩ url) ∧
    (∀ (e : String) (f1 x1 x2 x3 x4 : Except String YdlInfo)
      (xe : Option String) (url : String) (q : List String),
      pyStartswith (_sanitize_sc_url (pyStrip url)) "http" = true →
      runTier x1 x2 tier2ErrTag tier2EmptyMsg = .ok q →
      get_soundcloud_queries ⟨.error e, f1, x1, x2, x3, x4, xe⟩ url = .ok q) := by
  refine ⟨fun e full tag msg => rfl, fun e f1 f2 x1 x2 x3 x4 xe url => rfl, ?_⟩
  intro e f1 x1 x2 x3 x4 xe url q hurl h2
  rw [get_of_check _ _ hurl]
  exact ladder_t2_ok _ q (tier1ErrTag ++ e) rfl h2

/-- Witness for C1 (amended): with the tier-1 flat attempt raising `"boom"`
and tier 2's flat attempt yielding the sample tracks, the resolver returns
tier 2's tracks. -/
theorem claim_C1_witness :
    get_soundcloud_queries
      ⟨.error "boom", .ok infoFooBar, .ok infoFooBar, .ok infoEmpty,
        .ok infoEmpty, .ok infoEmpty, none⟩
      "https://soundcloud.com/a/b" = .ok ["Bar - Foo", "Baz"] :=
  claim_C1.2.2 "boom" (.ok infoFooBar) (.ok infoFooBar) (.ok infoEmpty)
    (.ok infoEmpty) (.ok infoEmpty) none "https://soundcloud.com/a/b"
    ["Bar - Foo", "Baz"] rfl rfl

/-- Claim C2: the first tier to yield a non-empty query list wins and later
tiers are never attempted.  First conjunct is the spec's scenario: tier-1
flat yields zero tracks, tier-1 full yields `q ≠ []`, and the resolver
returns `q` whatever the tier-2/tier-3 attempts would do.  Second conjunct:
whenever tier 1 succeeds with `q` the resolver returns `q`, for every
behaviour of the later tiers.  Third conjunct: when tier 1 fails and tier 2
succeeds with `q`, the resolver returns `q`, for every behaviour of
tier 3. -/
theorem claim_C2 (a1 a2 x1 x2 x3 x4 : Except String YdlInfo)
    (xe : Option String) (url : String) (q : List String)
    (hurl : pyStartswith (_sanitize_sc_url (pyStrip url)) "http" = true) :
    (∀ d1 d2, a1 = .ok d1 → _extract_sc_queries_from_ydl_json d1 = [] →
      a2 = .ok d2 → _extract_sc_queries_from_ydl_json d2 = q → q ≠ [] →
      get_soundcloud_queries ⟨a1, a2, x1, x2, x3, x4, xe⟩ url = .ok q) ∧
    (runTier a1 a2 tier1ErrTag tier1EmptyMsg = .ok q →
      get_soundcloud_queries ⟨a1, a2, x1, x2, x3, x4, xe⟩ url = .ok q) ∧
    (∀ e1, runTier a1 a2 tier1ErrTag tier1EmptyMsg = .error e1 →
      runTier x1 x2 tier2ErrTag tier2EmptyMsg = .ok q →
      get_soundcloud_queries ⟨a1, a2, x1, x2, x3, x4, xe⟩ url = .ok q) := by
  refine ⟨?_, ?_, ?_⟩
  · rintro d1 d2 rfl hd1 rfl hd2 hq
    rw [get_of_check _ _ hurl]
    apply ladder_t1_ok
    simp [runTier, hd1, hd2, hq]
  · intro h
    rw [get_of_check _ _ hurl]
    exact ladder_t1_ok _ _ h
  · intro e1 h1 h2
    rw [get_of_check _ _ hurl]
    exact ladder_t2_ok _ _ _ h1 h2

/-- Witness for C2: tier-1 flat empty, tier-1 full yields the two sample
tracks, every later attempt would raise — the resolver returns the two
tracks. -/
theorem claim_C2_witness :
    get_soundcloud_queries envT1FullGood "https://soundcloud.com/a/b" =
      .ok ["Bar - Foo", "Baz"] :=
  (claim_C2 (.ok infoEmpty) (.ok infoFooBar) (.error "x") (.error "x")
      (.error "x") (.error "x") none "https://soundcloud.com/a/b"
      ["Bar - Foo", "Baz"] rfl).1
    infoEmpty infoFooBar rfl rfl rfl rfl (by simp)

/-- Claim C3 is false on the code as stated: the input `"httpx"` does not
begin with an HTTP/HTTPS scheme, yet the resolver does not fail with the
`InvalidURL` `ValueError` — the check is only `startswith("http")`, so the
backends are attempted and (here) tier 1 succeeds. -/
theorem claim_C3_counterexample :
    startsWithHttpScheme "httpx" = false ∧
    get_soundcloud_queries envT1Good "httpx" = .ok ["Bar - Foo", "Baz"] :=
  ⟨rfl, rfl⟩

/-- Claim C3 (amended): the fail-fast check tests the literal prefix
`"http"` of the trimmed, sanitized input.  If that prefix is absent,
resolution fails with the `ValueError` carrying the remediation message
before any backend is attempted (the same error for every backend
environment); if it is present — in particular for every input beginning
with an HTTP/HTTPS scheme — the check passes and no `ValueError` is ever
raised. -/
theorem claim_C3 (s : String) (b : Backends) :
    (pyStartswith (_sanitize_sc_url (pyStrip s)) "http" = false →
      get_soundcloud_queries b s = .error (.valueError invalidUrlMsg)) ∧
    (pyStartswith (_sanitize_sc_url (pyStrip s)) "http" = true →
      ∀ m, get_soundcloud_queries b s ≠ .error (.valueError m)) ∧
    (startsWithHttpScheme (_sanitize_sc_url (pyStrip s)) = true →
      pyStartswith (_sanitize_sc_url (pyStrip s)) "http" = true) := by
  refine ⟨?_, ?_, ?_⟩
  · intro h
    simp [get_soundcloud_queries, h]
  · intro h m
    rw [get_of_check _ _ h]
    unfold resolveLadder
    split
    · simp
    · split
      · simp
      · split
        · simp
        · intro hx
          injection hx with hx2
          exact ResolveError.noConfusion hx2
  · intro h
    unfold startsWithHttpScheme at h
    unfold pyStartswith at h ⊢
    rcases Bool.or_eq_true_iff.mp h with h1 | h1 <;>
      rw [ List.isPrefixOf_iff_prefix] at h1 ⊢
    · exact List.IsPrefix.trans ⟨"://".data, rfl⟩ h1
    · exact List.IsPrefix.trans ⟨"s://".data, rfl⟩ h1

/-- Witness for C3 (amended): `"garbage-url"` fails with the `ValueError`;
`"https://soundcloud.com/a"` does not. -/
theorem claim_C3_witness :
    get_soundcloud_queries envT1Good "garbage-url" =
      .error (.valueError invalidUrlMsg) ∧
    get_soundcloud_queries envT1Good "https://soundcloud.com/a" ≠
      .error (.valueError invalidUrlMsg) :=
  ⟨(claim_C3 "garbage-url" envT1Good).1 rfl,
    (claim_C3 "https://soundcloud.com/a" envT1Good).2.1 rfl invalidUrlMsg⟩

/-- Claim C4: query extraction equals, for every track-record list,
`filterMap` of the spec's per-record formatter (skip exactly the records
whose title strips to empty; format as `"uploader - title"` when the
stripped uploader is non-empty else `"title"`; order preserved by
`filterMap`); and the spec's sample input yields `["Bar - Foo", "Baz"]`. -/
theorem claim_C4 :
    (∀ d : YdlInfo, _extract_sc_queries_from_ydl_json d =
      (d.entries.getD []).filterMap formatTrackSpec) ∧
    (∀ e : TrackRecord,
      formatTrackSpec e = none ↔ pyStrip (e.title.getD "") = "") ∧
    _extract_sc_queries_from_ydl_json infoFooBar = ["Bar - Foo", "Baz"] := by
  refine ⟨extract_eq_filterMap, ?_, rfl⟩
  intro e
  by_cases ht : pyStrip (e.title.getD "") = "" <;> simp [formatTrackSpec, ht]

/-- Claim C5: URL sanitization equals the spec's description — keep exactly
the characters before the first `?` or `#`, whichever occurs first — is
idempotent, and maps the spec's sample URL to
`"https://soundcloud.com/user/playlist"`. -/
theorem claim_C5 :
    (∀ u, _sanitize_sc_url u = sanitizeSpec u) ∧
    (∀ u, _sanitize_sc_url (_sanitize_sc_url u) = _sanitize_sc_url u) ∧
    _sanitize_sc_url
        "https://soundcloud.com/user/playlist?utm_source=clip#frag" =
      "https://soundcloud.com/user/playlist" := by
  have hmain : ∀ u, _sanitize_sc_url u = sanitizeSpec u := by
    intro u
    unfold _sanitize_sc_url splitHead sanitizeSpec
    refine congrArg String.mk ?_
    rw [List.takeWhile_takeWhile]
    congr 1
    funext a
    by_cases h1 : a = '?'
    · subst h1
      decide
    · by_cases h2 : a = '#'
      · subst h2
        decide
      · simp [bne, h1, h2]
  have hidem : ∀ u, sanitizeSpec (sanitizeSpec u) = sanitizeSpec u := by
    intro u
    unfold sanitizeSpec
    exact congrArg String.mk List.takeWhile_idem
  refine ⟨hmain, ?_, rfl⟩
  intro u
  calc _sanitize_sc_url (_sanitize_sc_url u)
      = sanitizeSpec (sanitizeSpec u) := by rw [hmain, hmain]
    _ = sanitizeSpec u := hidem u
    _ = _sanitize_sc_url u := (hmain u).symm

/-- Claim C6: for every query, output directory, bitrate and authentication
flag, the built command contains the `--format` flag with its fixed value
`m4a` and the `--bitrate` flag with the given bitrate; with the flag true it
is the no-authentication list plus a final `--user-auth`; with the flag
false it is exactly the ten fixed arguments, so the builder appends no
authentication flag. -/
theorem claim_C6 (pythonExe query out_dir bitrate : String) :
    (∀ auth : Bool,
      "--format" ∈ build_spotdl_cmd pythonExe query out_dir bitrate auth ∧
      "m4a" ∈ build_spotdl_cmd pythonExe query out_dir bitrate auth ∧
      "--bitrate" ∈ build_spotdl_cmd pythonExe query out_dir bitrate auth ∧
      bitrate ∈ build_spotdl_cmd pythonExe query out_dir bitrate auth) ∧
    build_spotdl_cmd pythonExe query out_dir bitrate true =
      build_spotdl_cmd pythonExe query out_dir bitrate false ++
        ["--user-auth"] ∧
    (build_spotdl_cmd pythonExe query out_dir bitrate true).getLast? =
      some "--user-auth" ∧
    build_spotdl_cmd pythonExe query out_dir bitrate false =
      [pythonExe, "-m", "spotdl", "download", query, "--output", out_dir,
        "--format", "m4a", "--bitrate", bitrate] := by
  refine ⟨?_, rfl, rfl, rfl⟩
  intro auth
  cases auth <;> simp [build_spotdl_cmd]

/-- Claim C7: when all three tiers fail, the resolver raises the aggregated
`RuntimeError` whose message is the summary followed by the three per-tier
error strings joined by periods; the message starts with the summary and
contains each per-tier reason; and the resolver never returns an empty
list. -/
theorem claim_C7 (b : Backends) (url : String) (e1 e2 e3 : String)
    (hurl : pyStartswith (_sanitize_sc_url (pyStrip url)) "http" = true)
    (h1 : runTier b.t1flat b.t1full tier1ErrTag tier1EmptyMsg = .error e1)
    (h2 : runTier b.t2flat b.t2full tier2ErrTag tier2EmptyMsg = .error e2)
    (h3 : runTier3 b = .error e3) :
    (get_soundcloud_queries b url =
      .error (.runtimeError (summaryMsg ++ e1 ++ "." ++ e2 ++ "." ++ e3))) ∧
    pyStartswith (summaryMsg ++ e1 ++ "." ++ e2 ++ "." ++ e3) summaryMsg
      = true ∧
    strContains (summaryMsg ++ e1 ++ "." ++ e2 ++ "." ++ e3) e1 ∧
    strContains (summaryMsg ++ e1 ++ "." ++ e2 ++ "." ++ e3) e2 ∧
    strContains (summaryMsg ++ e1 ++ "." ++ e2 ++ "." ++ e3) e3 ∧
    (∀ (b2 : Backends) (url2 : String) (q : List String),
      get_soundcloud_queries b2 url2 = .ok q → q ≠ []) := by
  refine ⟨?_, ?_, ?_, ?_, ?_, ?_⟩
  · rw [get_of_check _ _ hurl, ladder_all_err _ _ _ _ h1 h2 h3]
    rw [intercalate_three]
    simp [String.append_assoc]
  · rw [show summaryMsg ++ e1 ++ "." ++ e2 ++ "." ++ e3 =
      summaryMsg ++ (e1 ++ "." ++ e2 ++ "." ++ e3) from by
        simp [String.append_assoc]]
    exact pyStartswith_append _ _
  · exact ⟨summaryMsg, "." ++ e2 ++ "." ++ e3, by simp [String.append_assoc]⟩
  · exact ⟨summaryMsg ++ e1 ++ ".", "." ++ e3, by simp [String.append_assoc]⟩
  · exact ⟨summaryMsg ++ e1 ++ "." ++ e2 ++ ".", "", by
      simp [String.append_assoc]⟩
  · intro b2 url2 q h
    exact (get_ok_elim _ _ _ h).1

/-- Witness for C7: with every tier's flat attempt raising, the resolver
raises the aggregated message listing all three reasons. -/
theorem claim_C7_witness :
    get_soundcloud_queries envAllErr "https://soundcloud.com/a/b" =
      .error (.runtimeError
        ("yt-dlp could not extract the SoundCloud set." ++
          "Python API error: E1" ++ "." ++ "python -m yt_dlp error: E2" ++
          "." ++ "Executable error: E3")) :=
  (claim_C7 envAllErr "https://soundcloud.com/a/b" "Python API error: E1"
    "python -m yt_dlp error: E2" "Executable error: E3" rfl rfl rfl rfl).1

/-- Claim C8 is false on the code: there is no distinct `EmptyPlaylist`
error kind.  With every attempt succeeding mechanically but yielding zero
tracks (`envAllEmpty`), and with every tier erroring (`envAllErr`), the
resolver raises the SAME `RuntimeError` kind, distinguishable only by the
text of the accumulated per-tier reasons. -/
theorem claim_C8_counterexample :
    get_soundcloud_queries envAllEmpty "https://soundcloud.com/a/b" =
      .error (.runtimeError
        "yt-dlp could not extract the SoundCloud set.Python API returned no entries even after full extraction.python -m yt_dlp returned no entries even after full extraction.yt-dlp executable returned no entries even after full extraction") ∧
    get_soundcloud_queries envAllErr "https://soundcloud.com/a/b" =
      .error (.runtimeError
        "yt-dlp could not extract the SoundCloud set.Python API error: E1.python -m yt_dlp error: E2.Executable error: E3") :=
  ⟨rfl, rfl⟩

/-- Claim C8 (amended): when resolution succeeds mechanically but yields
zero usable tracks, the resolver raises the same aggregated `RuntimeError`
kind it uses when backends errored — not a distinct `EmptyPlaylist` kind;
the zero-track case is marked only by the per-tier
"returned no entries even after full extraction" reason strings. -/
theorem claim_C8 (url p : String) (d1 d2 d3 d4 d5 d6 : YdlInfo)
    (hurl : pyStartswith (_sanitize_sc_url (pyStrip url)) "http" = true)
    (h1 : _extract_sc_queries_from_ydl_json d1 = [])
    (h2 : _extract_sc_queries_from_ydl_json d2 = [])
    (h3 : _extract_sc_queries_from_ydl_json d3 = [])
    (h4 : _extract_sc_queries_from_ydl_json d4 = [])
    (h5 : _extract_sc_queries_from_ydl_json d5 = [])
    (h6 : _extract_sc_queries_from_ydl_json d6 = []) :
    get_soundcloud_queries
      ⟨.ok d1, .ok d2, .ok d3, .ok d4, .ok d5, .ok d6, some p⟩ url =
      .error (.runtimeError (summaryMsg ++ tier1EmptyMsg ++ "." ++
        tier2EmptyMsg ++ "." ++ tier3EmptyMsg)) := by
  rw [get_of_check _ _ hurl]
  have ht1 : runTier (.ok d1) (.ok d2) tier1ErrTag tier1EmptyMsg =
      .error tier1EmptyMsg := by
    simp [runTier, h1, h2]
  have ht2 : runTier (.ok d3) (.ok d4) tier2ErrTag tier2EmptyMsg =
      .error tier2EmptyMsg := by
    simp [runTier, h3, h4]
  have ht3 : runTier3
      ⟨.ok d1, .ok d2, .ok d3, .ok d4, .ok d5, .ok d6, some p⟩ =
      .error tier3EmptyMsg := by
    simp [runTier3, runTier, h5, h6]
  rw [ladder_all_err _ _ _ _ ht1 ht2 ht3, intercalate_three]
  simp [String.append_assoc]

/-- Witness for C8 (amended): the all-empty environment produces the
aggregated `RuntimeError` built from the three zero-entry reasons. -/
theorem claim_C8_witness :
    get_soundcloud_queries envAllEmpty "https://soundcloud.com/a/b" =
      .error (.runtimeError (summaryMsg ++ tier1EmptyMsg ++ "." ++
        tier2EmptyMsg ++ "." ++ tier3EmptyMsg)) :=
  claim_C8 "https://soundcloud.com/a/b" "/usr/local/bin/yt-dlp"
    infoEmpty infoEmpty infoEmpty infoEmpty infoEmpty infoEmpty
    rfl rfl rfl rfl rfl rfl rfl

/-- Claim C9: whenever the resolver returns a list, none of its elements is
empty or whitespace-only (every element still has content after
stripping). -/
theorem claim_C9 (b : Backends) (url : String) (q : List String)
    (h : get_soundcloud_queries b url = .ok q) :
    ∀ s ∈ q, pyStrip s ≠ "" := by
  rcases (get_ok_elim _ _ _ h).2 with ⟨d, hd⟩
  intro s hs
  rw [← hd] at hs
  exact pyStrip_mem_extract_ne _ _ hs

/-- Witness for C9: the first query returned for the sample playlist is not
whitespace-only. -/
theorem claim_C9_witness : pyStrip "Bar - Foo" ≠ "" :=
  claim_C9 envT1Good "https://soundcloud.com/a/b" ["Bar - Foo", "Baz"]
    rfl "Bar - Foo" (by simp)

/-- Claim C10: a record whose title strips to something non-empty but whose
uploader is present and whitespace-only yields just the stripped title —
identical to the record with no uploader at all, never `" - title"`; both
fields are stripped before formatting. -/
theorem claim_C10 (t u : String) (h1 : pyStrip t ≠ "")
    (h2 : pyStrip u = "") :
    _extract_sc_queries_from_ydl_json ⟨some [⟨some t, some u⟩]⟩ =
      [pyStrip t] ∧
    _extract_sc_queries_from_ydl_json ⟨some [⟨some t, some u⟩]⟩ =
      _extract_sc_queries_from_ydl_json ⟨some [⟨some t, none⟩]⟩ := by
  constructor <;>
    simp [_extract_sc_queries_from_ydl_json, extractStep, pyStrip_empty,
      h1, h2]

/-- Witness for C10: the record `{title: " Foo ", uploader: "   "}` yields
the single query `"Foo"`. -/
theorem claim_C10_witness :
    _extract_sc_queries_from_ydl_json ⟨some [⟨some " Foo ", some "   "⟩]⟩ =
      ["Foo"] :=
  (claim_C10 " Foo " "   " (by decide) rfl).1

end SpotCloud
